import Mathlib

/-!
Verification of the azusa query core: the connection registry, the driver
type-code mapper, the predicate builder and the result materializer, shallowly
embedded from `src/azusa/query/_database.py` and `src/azusa/query/statements.py`.
-/

namespace Azusa

/-! ### Type mapper (`map_type_code` in `_database.py`) -/

/-- Semantic column types: the Polars data-type classes the mapper can return. -/
inductive PolarsType where
  | Int64
  | Float64
  | Null
  | Datetime
  | Date
  | Decimal
  | String
  | Binary
  | Unknown
deriving DecidableEq

/-- An entry of the lookup table in `map_type_code`: either a concrete Polars
type, or the sentinel value `"STR_TYPE"` marking a code ambiguous between
textual and binary representation. -/
inductive MappedType where
  | typ (t : PolarsType)
  | strType
deriving DecidableEq

/-- The fixed lookup table from driver type codes to mapped types, embedding
the dict literal inside `map_type_code` (key order preserved; keys distinct, so
association-list lookup coincides with dict lookup). -/
def type_code_mapping : List (Int × MappedType) :=
  [(1, .typ .Int64), (2, .typ .Int64), (3, .typ .Int64),
   (4, .typ .Float64), (5, .typ .Float64),
   (6, .typ .Null),
   (7, .typ .Datetime),
   (8, .typ .Int64),
   (10, .typ .Date),
   (246, .typ .Decimal),
   (247, .strType), (248, .strType), (249, .strType), (250, .strType),
   (252, .strType), (253, .strType)]

/-- The string-handling mode, embedding `StrMode = Literal["str", "bytes", "guess"]`
from `_typing.py`. -/
inductive StrMode where
  | str
  | bytes
  | guess
deriving DecidableEq

/-- Embeds `map_type_code(code, str_mode)`: `mapping.get(code, Unknown)`; a
result other than the `"STR_TYPE"` sentinel is returned directly; otherwise the
`match` on `str_mode` returns String for `"str"` and Binary for `"bytes"`, and
every other mode (only `"guess"` is typeable) falls through to Unknown. -/
def map_type_code (code : Int) (str_mode : StrMode) : PolarsType :=
  match (List.lookup code type_code_mapping).getD (.typ .Unknown) with
  | .typ t => t
  | .strType =>
    match str_mode with
    | .str => .String
    | .bytes => .Binary
    | .guess => .Unknown

/-- The six type codes whose table entry is the `"STR_TYPE"` sentinel. -/
def ambiguous_codes : List Int := [247, 248, 249, 250, 252, 253]

/-- Every code whose table entry is the sentinel is one of the six ambiguous
codes. -/
theorem strType_code_mem (code : Int)
    (h : List.lookup code type_code_mapping = some .strType) :
    code ∈ ambiguous_codes := by
  simp only [type_code_mapping, List.lookup] at h
  simp only [ambiguous_codes]
  repeat' split at h
  all_goals simp_all

/-- C3: a type code absent from the fixed lookup table maps to the explicit
Unknown type for every string mode, and the mapper never raises (it is a total
function); moreover the mapper is deterministic and pure: two calls with the
same arguments return the same semantic type. -/
theorem map_type_code_unrecognized :
    (∀ (code : Int) (m : StrMode),
      List.lookup code type_code_mapping = none →
        map_type_code code m = .Unknown) ∧
    (∀ (code : Int) (m : StrMode),
      map_type_code code m = map_type_code code m) := by
  constructor
  · intro code m h
    simp [map_type_code, h]
  · intro code m
    rfl

/-- Witness for C3 at the concrete unrecognized code 999. -/
theorem map_type_code_unrecognized_witness :
    List.lookup (999 : Int) type_code_mapping = none ∧
    map_type_code 999 .guess = .Unknown :=
  ⟨by decide, map_type_code_unrecognized.1 999 .guess (by decide)⟩

/-- C4: every code in the ambiguous textual/binary subset maps to the string
type in mode `str`, to the binary type in mode `bytes`, and to the explicit
Unknown type in mode `guess` (no inference is performed in guess mode). -/
theorem map_type_code_ambiguous (code : Int) (h : code ∈ ambiguous_codes) :
    map_type_code code .str = .String ∧
    map_type_code code .bytes = .Binary ∧
    map_type_code code .guess = .Unknown := by
  fin_cases h <;> exact ⟨rfl, rfl, rfl⟩

/-- Witness for C4 at the concrete ambiguous code 253. -/
theorem map_type_code_ambiguous_witness :
    (253 : Int) ∈ ambiguous_codes ∧
    (map_type_code 253 .str = .String ∧
     map_type_code 253 .bytes = .Binary ∧
     map_type_code 253 .guess = .Unknown) :=
  ⟨by decide, map_type_code_ambiguous 253 (by decide)⟩

/-- C10: outside the six ambiguous codes the mapper's result does not depend on
the string mode. -/
theorem map_type_code_mode_independent (code : Int)
    (h : code ∉ ambiguous_codes) (m1 m2 : StrMode) :
    map_type_code code m1 = map_type_code code m2 := by
  unfold map_type_code
  cases hl : List.lookup code type_code_mapping with
  | none => rfl
  | some e =>
    cases e with
    | typ t => rfl
    | strType => exact absurd (strType_code_mem code hl) h

/-- Witness for C10 at the concrete unambiguous code 3. -/
theorem map_type_code_mode_independent_witness :
    (3 : Int) ∉ ambiguous_codes ∧
    map_type_code 3 .str = map_type_code 3 .guess :=
  ⟨by decide, map_type_code_mode_independent 3 (by decide) .str .guess⟩

/-! ### Predicate builder (`_generate_where_clause` and `where_clauses` in
`statements.py`) -/

/-- Python values the predicate builder can receive: strings, atomic
non-iterable scalars (ints/floats), and iterables of further values (lists).
A list value is itself unhashable, so nesting a list inside a list models a
sequence whose elements cannot be put into a Python set. -/
inductive PyValue where
  | str (s : String)
  | num (n : Int)
  | list (xs : List PyValue)

mutual

/-- Decidable equality on values, written by hand because the automatic
derivation does not handle the nested list. -/
def PyValue.decEq : (a b : PyValue) → Decidable (a = b)
  | .str a, .str b =>
    if h : a = b then .isTrue (by rw [h]) else .isFalse (by simp [h])
  | .num a, .num b =>
    if h : a = b then .isTrue (by rw [h]) else .isFalse (by simp [h])
  | .list as, .list bs =>
    match PyValue.decEqList as bs with
    | .isTrue h => .isTrue (by rw [h])
    | .isFalse h => .isFalse (by simp [h])
  | .str _, .num _ => .isFalse (by simp)
  | .str _, .list _ => .isFalse (by simp)
  | .num _, .str _ => .isFalse (by simp)
  | .num _, .list _ => .isFalse (by simp)
  | .list _, .str _ => .isFalse (by simp)
  | .list _, .num _ => .isFalse (by simp)

/-- Decidable equality on lists of values, mutually with `PyValue.decEq`. -/
def PyValue.decEqList : (as bs : List PyValue) → Decidable (as = bs)
  | [], [] => .isTrue rfl
  | [], _ :: _ => .isFalse (by simp)
  | _ :: _, [] => .isFalse (by simp)
  | a :: as, b :: bs =>
    match PyValue.decEq a b, PyValue.decEqList as bs with
    | .isTrue h1, .isTrue h2 => .isTrue (by rw [h1, h2])
    | .isFalse h1, _ => .isFalse (by simp [h1])
    | _, .isFalse h2 => .isFalse (by simp [h2])

end

instance : DecidableEq PyValue := PyValue.decEq

/-- Whether a value can be an element of a Python set: strings and numbers
are hashable, lists are not. -/
def PyValue.hashable : PyValue → Bool
  | .list _ => false
  | _ => true

/-- A filter condition produced by the builder: either column equals value
(the `column.op("=")(value)` expression) or membership of the column in a set
of values (the `column.in_(set(value))` expression). -/
inductive Predicate (Col : Type) where
  | eq (col : Col) (value : PyValue)
  | mem (col : Col) (values : Finset PyValue)

/-- Embeds `_generate_where_clause(column, value)`: a string gives the
equality expression outright; otherwise `set(value)` is attempted — it raises
a TypeError when the value is not iterable (a number) or when some element is
unhashable, in which case the fallback is the equality expression on the raw
value; when it succeeds the result is the membership expression on the
deduplicated set. -/
def _generate_where_clause {Col : Type} (column : Col) (value : PyValue) :
    Predicate Col :=
  match value with
  | .str s => .eq column (.str s)
  | .num n => .eq column (.num n)
  | .list xs =>
    if xs.all PyValue.hashable then .mem column xs.toFinset
    else .eq column (.list xs)

/-- Embeds `where_clauses(conditions)`: the list comprehension applying
`_generate_where_clause` to each pair whose value is not None. -/
def where_clauses {Col : Type} (conditions : List (Col × Option PyValue)) :
    List (Predicate Col) :=
  conditions.filterMap fun p =>
    match p.2 with
    | some v => some (_generate_where_clause p.1 v)
    | none => none

/-- C2: a single atomic value — any string included, never treated as a
sequence of characters — yields an equality predicate; a multi-element
sequence of hashable values yields a membership predicate whose value set is
the deduplicated set of its elements, the same set for any reordering of the
sequence. -/
theorem build_predicate_spec {Col : Type} :
    (∀ (col : Col) (s : String),
      _generate_where_clause col (.str s) = .eq col (.str s)) ∧
    (∀ (col : Col) (n : Int),
      _generate_where_clause col (.num n) = .eq col (.num n)) ∧
    (∀ (col : Col) (xs : List PyValue), 2 ≤ xs.length →
      xs.all PyValue.hashable = true →
      _generate_where_clause col (.list xs) = .mem col xs.toFinset) ∧
    (∀ (col : Col) (xs ys : List PyValue), xs.Perm ys →
      xs.all PyValue.hashable = true →
      _generate_where_clause col (.list xs) =
        _generate_where_clause col (.list ys)) := by
  refine ⟨fun _ _ => rfl, fun _ _ => rfl, ?_, ?_⟩
  · intro col xs _ h
    simp [_generate_where_clause, h]
  · intro col xs ys hp h
    have h2 : ys.all PyValue.hashable = true := by
      rw [List.all_eq_true] at h ⊢
      intro x hx
      exact h x (hp.mem_iff.mpr hx)
    simp [_generate_where_clause, h, h2, List.toFinset_eq_of_perm _ _ hp]

/-- Witness for C2 at a concrete column, string, number, and a two-element
sequence together with its reversal. -/
theorem build_predicate_spec_witness :
    _generate_where_clause (0 : Nat) (.str "Foo") = .eq 0 (.str "Foo") ∧
    _generate_where_clause (0 : Nat) (.num 7) = .eq 0 (.num 7) ∧
    2 ≤ ([PyValue.num 1, PyValue.num 2] : List PyValue).length ∧
    ([PyValue.num 1, PyValue.num 2] : List PyValue).all PyValue.hashable
      = true ∧
    ([PyValue.num 1, PyValue.num 2] : List PyValue).Perm
      [PyValue.num 2, PyValue.num 1] ∧
    _generate_where_clause (0 : Nat) (.list [.num 1, .num 2]) =
      .mem 0 ([PyValue.num 1, PyValue.num 2] : List PyValue).toFinset ∧
    _generate_where_clause (0 : Nat) (.list [.num 1, .num 2]) =
      _generate_where_clause (0 : Nat) (.list [.num 2, .num 1]) :=
  ⟨build_predicate_spec.1 0 "Foo",
   build_predicate_spec.2.1 0 7,
   by decide, by decide, by decide,
   build_predicate_spec.2.2.1 0 [.num 1, .num 2] (by decide) (by decide),
   build_predicate_spec.2.2.2 0 [.num 1, .num 2] [.num 2, .num 1]
     (by decide) (by decide)⟩

/-- C7: a non-string multi-valued value with an element that is not hashable
does not make the builder fail: it falls back to an equality predicate against
the raw value. -/
theorem build_predicate_unhashable {Col : Type} (col : Col)
    (xs : List PyValue) (h : xs.all PyValue.hashable = false) :
    _generate_where_clause col (.list xs) = .eq col (.list xs) := by
  simp [_generate_where_clause, h]

/-- Witness for C7 at a concrete list containing an unhashable (list)
element. -/
theorem build_predicate_unhashable_witness :
    ([PyValue.list [], PyValue.num 1] : List PyValue).all PyValue.hashable
      = false ∧
    _generate_where_clause (0 : Nat) (.list [.list [], .num 1]) =
      .eq 0 (.list [.list [], .num 1]) :=
  ⟨by decide,
   build_predicate_unhashable 0 [.list [], .num 1] (by decide)⟩

/-- C9: a non-string iterable of hashable values with zero or one elements
yields a membership predicate over the (possibly empty) set of its elements —
it is neither skipped nor turned into an equality predicate. -/
theorem build_predicate_short_sequence {Col : Type} (col : Col)
    (xs : List PyValue) (_h1 : xs.length ≤ 1)
    (h2 : xs.all PyValue.hashable = true) :
    _generate_where_clause col (.list xs) = .mem col xs.toFinset := by
  simp [_generate_where_clause, h2]

/-- Witness for C9 at the concrete empty sequence, whose membership set is the
empty set. -/
theorem build_predicate_short_sequence_witness :
    ([] : List PyValue).length ≤ 1 ∧
    ([] : List PyValue).all PyValue.hashable = true ∧
    _generate_where_clause (0 : Nat) (.list []) =
      .mem 0 (([] : List PyValue).toFinset) :=
  ⟨by decide, by decide,
   build_predicate_short_sequence 0 [] (by decide) (by decide)⟩

/-- C8: `where_clauses` produces exactly one predicate for every pair whose
value is present, omits every pair whose value is None, and preserves the
input order of the non-skipped predicates. -/
theorem where_clauses_spec {Col : Type} :
    (where_clauses ([] : List (Col × Option PyValue)) = []) ∧
    (∀ (conds : List (Col × Option PyValue)) (c : Col),
      where_clauses ((c, none) :: conds) = where_clauses conds) ∧
    (∀ (conds : List (Col × Option PyValue)) (c : Col) (v : PyValue),
      where_clauses ((c, some v) :: conds) =
        _generate_where_clause c v :: where_clauses conds) ∧
    (∀ conds : List (Col × Option PyValue),
      (where_clauses conds).length =
        (conds.filter fun p => p.2.isSome).length) := by
  refine ⟨rfl, fun _ _ => rfl, fun _ _ _ => rfl, ?_⟩
  intro conds
  induction conds with
  | nil => rfl
  | cons p l ih =>
    obtain ⟨c, v⟩ := p
    cases v <;> simp [where_clauses, List.filterMap_cons, List.filter_cons]
      <;> simpa [where_clauses] using ih

/-! ### Connection registry (`Database.__new__` / `Database.__init__` in
`_database.py`)

The registry is the class-level dict `Database._instances` keyed by the
identity `(project, extension)`. Objects are modelled by allocation numbers;
the state records the identity-to-object map (in insertion order, as a dict
does), the next allocation number, and the list of identities for which
`_create_engine` has run, in order and with multiplicity. -/

/-- A connection identity: the `(project, extension)` key. -/
abbrev Identity := String × Option String

/-- The observable state of the process-wide registry. -/
structure RegistryState where
  instances : List (Identity × Nat)
  next_obj : Nat
  engine_builds : List Identity
deriving DecidableEq

/-- The registry state at interpreter start: no instances, no engines. -/
def RegistryState.initial : RegistryState :=
  { instances := [], next_obj := 0, engine_builds := [] }

/-- Embeds `Database.__new__`:
`cls._instances.setdefault((project, extension), super().__new__(cls))`.
The bare allocation from `super().__new__(cls)` is evaluated before
`setdefault` consults the dict, so the allocation counter always advances;
the object returned is the cached one when the identity is present, and the
fresh one — which is then recorded — when it is absent. Building an engine is
not part of `__new__`. -/
def Database.new (s : RegistryState) (project : String)
    (extension : Option String) : RegistryState × Nat :=
  let fresh := s.next_obj
  let s1 : RegistryState := { s with next_obj := s.next_obj + 1 }
  match List.lookup (project, extension) s.instances with
  | some obj => (s1, obj)
  | none =>
    ({ s1 with instances := s.instances ++ [((project, extension), fresh)] },
     fresh)

/-- Embeds `Database.__init__`, which assigns `project`, `extension` and
`host` and unconditionally runs `self._engine = self._create_engine()`; the
state-visible effect tracked here is the engine construction, recorded under
the identity the call received. -/
def Database.init (s : RegistryState) (project : String)
    (extension : Option String) : RegistryState :=
  { s with engine_builds := s.engine_builds ++ [(project, extension)] }

/-- Embeds the Python construction call `Database(project, extension)`:
`__new__` runs first; because it returns an instance of the class, Python then
always runs `__init__` on that instance — including when the instance came
from the cache. -/
def Database.construct (s : RegistryState) (project : String)
    (extension : Option String) : RegistryState × Nat :=
  let r := Database.new s project extension
  (Database.init r.1 project extension, r.2)

/-- Embeds `Database._construct_host`. -/
def Database.construct_host (project : String) (extension : Option String) :
    String :=
  match extension with
  | none => project
  | some ext => ext ++ "." ++ project

/-- Looking up a key just appended to an association list in which it was
absent finds the appended value. -/
theorem lookup_append_singleton {α β : Type} [BEq α] [LawfulBEq α]
    {k : α} {v : β} {l : List (α × β)} (h : List.lookup k l = none) :
    List.lookup k (l ++ [(k, v)]) = some v := by
  induction l with
  | nil => simp [List.lookup]
  | cons p t ih =>
    obtain ⟨a, b⟩ := p
    cases hab : k == a with
    | true => simp [List.lookup, hab] at h
    | false =>
      simp only [List.cons_append, List.lookup, hab] at h ⊢
      exact ih h

/-- After a construction for an identity, the registry maps that identity to
the object the construction returned. -/
theorem construct_lookup (s : RegistryState) (p : String)
    (e : Option String) :
    List.lookup (p, e) (Database.construct s p e).1.instances =
      some (Database.construct s p e).2 := by
  unfold Database.construct Database.new Database.init
  cases hl : List.lookup (p, e) s.instances with
  | some obj => simp [hl]
  | none => simpa [hl] using lookup_append_singleton hl

/-- Repeated construction with an equal identity returns the
reference-identical cached object: the half of the idempotence claim that the
code does satisfy. -/
theorem construct_same_object (s : RegistryState) (p : String)
    (e : Option String) :
    (Database.construct (Database.construct s p e).1 p e).2 =
      (Database.construct s p e).2 := by
  have h := construct_lookup s p e
  unfold Database.construct Database.new Database.init
  simp only []
  rw [show (Database.construct s p e).1.instances =
        (Database.init (Database.new s p e).1 p e).instances from rfl] at h
  simp only [Database.init] at h
  unfold Database.construct Database.new Database.init at h
  rw [h]

/-- C1: the claim that the underlying engine is built at most once per
identity fails on the code: from a fresh registry, constructing the Database
twice for the identity ("zhwiki", None) returns the reference-identical
object both times, yet `_create_engine` runs twice for that identity, because
`__init__` runs unconditionally on every construction — including on the
cached instance returned by `__new__`. -/
theorem construct_rebuilds_engine :
    (Database.construct
        (Database.construct RegistryState.initial "zhwiki" none).1
        "zhwiki" none).2 =
      (Database.construct RegistryState.initial "zhwiki" none).2 ∧
    (Database.construct
        (Database.construct RegistryState.initial "zhwiki" none).1
        "zhwiki" none).1.engine_builds.count ("zhwiki", none) = 2 := by
  constructor
  · rfl
  · rfl

/-! ### Result materializer (`Database.fetch` in `_database.py`) -/

/-- Embeds the `ColumnInfo` named tuple: one column descriptor produced by the
driver, a name and an integer type code. -/
structure ColumnInfo where
  name : String
  type_code : Int
deriving DecidableEq

/-- Embeds the `RawQueryResult` dict returned by `fetch_raw`: ordered column
descriptors plus the row tuples, polymorphic in the cell type. -/
structure RawQueryResult (α : Type) where
  column_info : List ColumnInfo
  rows : List (List α)
deriving DecidableEq

/-- The materialized output: an ordered schema of named, typed columns plus
the row data. -/
structure TypedTable (α : Type) where
  columns : List (String × PolarsType)
  rows : List (List α)
deriving DecidableEq

/-- The failure the materializer can signal. -/
inductive FetchError where
  | schemaError
deriving DecidableEq

/-- Modelled from the spec: the polars `LazyFrame` row-oriented constructor
followed by `collect`, which the repository uses but whose code is not under
the repository sources. Per the spec it builds the typed table from the row
tuples and the schema, rejects with a `SchemaError` any input in which some
row's arity disagrees with the column count, and preserves column order
exactly, keeping duplicate names apart by position. -/
def lazyframe_collect {α : Type} (rows : List (List α))
    (schema : List (String × PolarsType)) : Except FetchError (TypedTable α) :=
  if rows.all fun r => r.length == schema.length then
    .ok { columns := schema, rows := rows }
  else
    .error .schemaError

/-- Modelled from the spec: the merge polars performs between the positional
schema and the `schema_overrides` mapping — an override for a column name wins
unconditionally over the inferred type of every column of that name. -/
def schema_with_overrides (schema : List (String × PolarsType))
    (schema_overrides : List (String × PolarsType)) :
    List (String × PolarsType) :=
  schema.map fun nt => (nt.1, (List.lookup nt.1 schema_overrides).getD nt.2)

/-- The kinds of statement `fetch` accepts, from the `Statement` alias in
`_typing.py`: a structured Select object, a TextClause, or a literal query
string. -/
inductive StatementKind where
  | selectStmt
  | textClauseStmt
  | rawString
deriving DecidableEq

/-- Embeds the string-mode default resolution at the top of `Database.fetch`:
a given mode is kept; otherwise a Select statement defaults to `str` and every
other statement to `bytes`. -/
def Database.resolve_str_mode (stmt : StatementKind) :
    Option StrMode → StrMode
  | some m => m
  | none =>
    match stmt with
    | .selectStmt => .str
    | _ => .bytes

/-- Embeds the materialization performed by `Database.fetch` once `fetch_raw`
has produced the raw result and the string mode has been resolved: the schema
maps each column descriptor, in order, through `map_type_code`, and the rows
and merged schema go through the polars LazyFrame collection. -/
def Database.fetch {α : Type} (raw : RawQueryResult α) (str_mode : StrMode)
    (schema_overrides : List (String × PolarsType)) :
    Except FetchError (TypedTable α) :=
  let schema := raw.column_info.map fun col =>
    (col.name, map_type_code col.type_code str_mode)
  lazyframe_collect raw.rows (schema_with_overrides schema schema_overrides)

/-- Collection succeeds on rows that all match the schema arity and returns
them unchanged under the given schema. -/
theorem lazyframe_collect_ok {α : Type} (rows : List (List α))
    (schema : List (String × PolarsType))
    (h : ∀ r ∈ rows, r.length = schema.length) :
    lazyframe_collect rows schema = .ok ⟨schema, rows⟩ := by
  unfold lazyframe_collect
  rw [if_pos]
  rw [List.all_eq_true]
  intro r hr
  rw [beq_iff_eq]
  exact h r hr

/-- Collection fails with the schema error when some row's arity disagrees
with the schema. -/
theorem lazyframe_collect_err {α : Type} (rows : List (List α))
    (schema : List (String × PolarsType))
    (h : ∃ r ∈ rows, r.length ≠ schema.length) :
    lazyframe_collect rows schema = .error .schemaError := by
  unfold lazyframe_collect
  rw [if_neg]
  intro hall
  rw [List.all_eq_true] at hall
  obtain ⟨r, hr, hne⟩ := h
  exact hne (by simpa using hall r hr)

/-- The merged schema `fetch` passes to collection has exactly one entry per
column descriptor. -/
theorem fetch_schema_length {α : Type} (raw : RawQueryResult α) (m : StrMode)
    (ov : List (String × PolarsType)) :
    (schema_with_overrides (raw.column_info.map fun col =>
      (col.name, map_type_code col.type_code m)) ov).length =
      raw.column_info.length := by
  simp [schema_with_overrides]

/-- C5: materializing a raw result with N column descriptors and M rows, every
row of arity N, yields a typed table with exactly N named columns and M rows,
the column names in exactly the order the driver returned them — including
when two columns share a name, which stay apart by position. -/
theorem fetch_shape {α : Type} (raw : RawQueryResult α) (m : StrMode)
    (ov : List (String × PolarsType))
    (h : ∀ r ∈ raw.rows, r.length = raw.column_info.length) :
    ∃ t : TypedTable α, Database.fetch raw m ov = .ok t ∧
      t.columns.length = raw.column_info.length ∧
      t.rows.length = raw.rows.length ∧
      t.columns.map Prod.fst = raw.column_info.map ColumnInfo.name := by
  refine ⟨⟨schema_with_overrides (raw.column_info.map fun col =>
      (col.name, map_type_code col.type_code m)) ov, raw.rows⟩,
    ?_, fetch_schema_length raw m ov, rfl, ?_⟩
  · unfold Database.fetch
    exact lazyframe_collect_ok _ _ fun r hr =>
      (h r hr).trans (fetch_schema_length raw m ov).symm
  · simp [schema_with_overrides]

/-- Witness for C5 at a concrete raw result with two columns that share the
name "namespace" and two rows. -/
theorem fetch_shape_witness :
    (∀ r ∈ (RawQueryResult.mk
        [⟨"namespace", 3⟩, ⟨"namespace", 3⟩]
        [[(0 : Int), 2], [4, 6]]).rows,
      r.length = (RawQueryResult.mk
        [(⟨"namespace", 3⟩ : ColumnInfo), ⟨"namespace", 3⟩]
        [[(0 : Int), 2], [4, 6]]).column_info.length) ∧
    (∃ t : TypedTable Int,
      Database.fetch (RawQueryResult.mk
        [⟨"namespace", 3⟩, ⟨"namespace", 3⟩]
        [[(0 : Int), 2], [4, 6]]) .str [] = .ok t ∧
      t.columns.length = 2 ∧
      t.rows.length = 2 ∧
      t.columns.map Prod.fst = ["namespace", "namespace"]) :=
  ⟨by decide,
   fetch_shape (RawQueryResult.mk
     [⟨"namespace", 3⟩, ⟨"namespace", 3⟩]
     [[(0 : Int), 2], [4, 6]]) .str [] (by decide)⟩

/-- C6: materializing a raw result containing at least one row whose arity
disagrees with the number of column descriptors fails with the schema error
rather than producing a typed table. -/
theorem fetch_arity_mismatch {α : Type} (raw : RawQueryResult α)
    (m : StrMode) (ov : List (String × PolarsType))
    (h : ∃ r ∈ raw.rows, r.length ≠ raw.column_info.length) :
    Database.fetch raw m ov = .error .schemaError := by
  unfold Database.fetch
  apply lazyframe_collect_err
  obtain ⟨r, hr, hne⟩ := h
  exact ⟨r, hr, fun hc => hne (hc.trans (fetch_schema_length raw m ov))⟩

/-- Witness for C6 at a concrete raw result with two columns and a
one-element second row. -/
theorem fetch_arity_mismatch_witness :
    (∃ r ∈ (RawQueryResult.mk
        [(⟨"page_id", 3⟩ : ColumnInfo), ⟨"page_title", 253⟩]
        [[(1 : Int), 2], [3]]).rows,
      r.length ≠ (RawQueryResult.mk
        [(⟨"page_id", 3⟩ : ColumnInfo), ⟨"page_title", 253⟩]
        [[(1 : Int), 2], [3]]).column_info.length) ∧
    Database.fetch (RawQueryResult.mk
        [⟨"page_id", 3⟩, ⟨"page_title", 253⟩]
        [[(1 : Int), 2], [3]]) .str [] = .error .schemaError :=
  ⟨by decide,
   fetch_arity_mismatch (RawQueryResult.mk
     [⟨"page_id", 3⟩, ⟨"page_title", 253⟩]
     [[(1 : Int), 2], [3]]) .str [] (by decide)⟩

end Azusa
